import Mathlib

/-!
Verification of the Godot tileset exporter (`export_to_godot_tileset.mjs`).

The development shallowly embeds the exporter: the tileset data model is a
family of structures, the mutable exporter instance becomes an explicit
state record threaded through pure functions, and the emitted `.tres` text
is built with ordinary string concatenation mirroring the template literals
of the source.  Numbers are modelled as `Int` (object geometry, tileset
metadata) and `Rat` (values produced by the host `parseFloat`); identifiers
are `Nat`.
-/

/-! ## String helpers modelling host primitives -/

/-- Decimal digit characters used by the number renderer. -/
def natDigitsAux : Nat → Nat → List Char
  | 0, _ => []
  | fuel + 1, n =>
    if n < 10 then [Nat.digitChar n]
    else natDigitsAux fuel (n / 10) ++ [Nat.digitChar (n % 10)]

/-- Decimal rendering of a natural number, modelling the JavaScript default
number-to-string conversion for nonnegative integers. -/
def natToString (n : Nat) : String := String.mk (natDigitsAux (n + 1) n)

/-- Decimal rendering of an integer, modelling the JavaScript default
number-to-string conversion for integers. -/
def intToString : Int → String
  | Int.ofNat n => natToString n
  | Int.negSucc n => "-" ++ natToString (n + 1)

/-- Models JavaScript `Array.prototype.join(sep)` on a list of strings. -/
def joinSep (sep : String) : List String → String
  | [] => ""
  | [x] => x
  | x :: y :: xs => x ++ sep ++ joinSep sep (y :: xs)

/-- Models the regular-expression replacement `replace(/,\s*$/, "")` used by
the exporter: when the string ends in a comma followed only by whitespace,
that comma and the whitespace after it are removed; otherwise the string is
returned unchanged. -/
def stripTrailingCommaWs (s : String) : String :=
  let rev := s.data.reverse.dropWhile Char.isWhitespace
  if rev.head? = some ',' then String.mk rev.tail.reverse else s

/-- True when the string ends with a comma followed only by whitespace, i.e.
when a trailing list separator stands immediately before whatever closing
delimiter follows the string. -/
def endsWithCommaWs (s : String) : Bool :=
  (s.data.reverse.dropWhile Char.isWhitespace).head? == some ','

/-- Consumes leading decimal digits: returns the accumulated value, the
number of digits consumed, and the remaining characters. -/
def takeDigitsAux : Nat → Nat → List Char → Nat × Nat × List Char
  | acc, k, [] => (acc, k, [])
  | acc, k, c :: cs =>
    if 48 ≤ c.toNat ∧ c.toNat ≤ 57 then
      takeDigitsAux (acc * 10 + (c.toNat - 48)) (k + 1) cs
    else (acc, k, c :: cs)

/-- Models the JavaScript `parseFloat` builtin (a host primitive, not part of
the repository source): skip leading whitespace, read an optional sign and a
decimal number with an optional fractional part, and return `none` (NaN)
when no digit at all is read.  Exponent notation and Infinity are not
modelled; they do not occur in the analysed properties. -/
def jsParseFloat (s : String) : Option Rat :=
  let cs := s.data.dropWhile Char.isWhitespace
  let signAndRest : Int × List Char :=
    match cs with
    | '-' :: rest => (-1, rest)
    | '+' :: rest => (1, rest)
    | _ => (1, cs)
  let ipart := takeDigitsAux 0 0 signAndRest.2
  let fpart :=
    match ipart.2.2 with
    | '.' :: rest => takeDigitsAux 0 0 rest
    | _ => (0, 0, ipart.2.2)
  if ipart.2.1 + fpart.2.1 = 0 then none
  else some (mkRat (signAndRest.1 * (ipart.1 * 10 ^ fpart.2.1 + fpart.1)) (10 ^ fpart.2.1))

/-- Digits of the fractional part of a fraction `r / d`, with explicit fuel;
used only to render z-index values inside the final template. -/
def fracDigitsAux : Nat → Nat → Nat → String
  | 0, _, _ => ""
  | _, 0, _ => ""
  | fuel + 1, r, d => natToString (r * 10 / d) ++ fracDigitsAux fuel (r * 10 % d) d

/-- Models the JavaScript default number-to-string conversion for the
rationals arising from the modelled `parseFloat` (all of which have a
terminating decimal expansion); a non-terminating expansion would be
truncated after `den` digits. -/
def ratToString (q : Rat) : String :=
  let n := q.num.natAbs
  let sign := if q.num < 0 then "-" else ""
  sign ++ natToString (n / q.den) ++
    (if n % q.den = 0 then "" else "." ++ fracDigitsAux q.den (n % q.den) q.den)

/-! ## Data model (§3 of the source's documentation)

The host editor hands the exporter a read-only tileset object model; these
structures carry exactly the fields the exporter reads. -/

/-- A 2-D point of a polygon, relative to its object's anchor. -/
structure Point where
  x : Int
  y : Int
  deriving DecidableEq

/-- A per-tile geometric object: a type tag (`"navigation"`, `"one-way"` or
anything else for plain collision), a polygon (possibly empty), and an
anchor plus width/height for rectangle objects. -/
structure MapObject where
  type : String
  polygon : List Point
  x : Int
  y : Int
  width : Int
  height : Int
  deriving DecidableEq

/-- The object group of a tile. -/
structure ObjectGroup where
  objects : List MapObject
  deriving DecidableEq

/-- A tile: its id, the value of its `godot:z_index` property when present
(`tile.property` result), and its optional object group (`null` in the
source becomes `none`). -/
structure Tile where
  id : Nat
  zIndexProp : Option String
  objectGroup : Option ObjectGroup
  deriving DecidableEq

/-- The tileset handed to the exporter.  `columns` is the value returned by
`getTilesetColumns` (defined in `utils.mjs`, outside the embedded source; it
derives the column count from the image metadata and is constant across one
export). -/
structure Tileset where
  name : String
  margin : Int
  imageWidth : Int
  imageHeight : Int
  tileWidth : Int
  tileHeight : Int
  tileSpacing : Int
  columns : Nat
  tiles : List Tile
  deriving DecidableEq

/-! ## Shape builder (source lines 189-259) -/

/-- Renders `coordinateString` of `getCollisionShapePolygon`: the loop body
appends "x, y, " for each polygon point translated by the object anchor, and
the trailing separator is stripped afterwards. -/
def collisionPolygonPoints (object : MapObject) : String :=
  stripTrailingCommaWs (object.polygon.foldl
    (fun acc coordinate =>
      acc ++ intToString (object.x + coordinate.x) ++ ", " ++
        intToString (object.y + coordinate.y) ++ ", ")
    "")

/-- Source `getCollisionShapePolygon`. -/
def getCollisionShapePolygon (id : Nat) (object : MapObject) : String :=
  "[sub_resource type=\"ConvexPolygonShape2D\" id=" ++ natToString id ++
    "]\npoints = PoolVector2Array( " ++ collisionPolygonPoints object ++ " )\n\n"

/-- Renders the corner list of `getCollisionShapeRectangle`: top-left,
top-right, bottom-right, bottom-left. -/
def collisionRectanglePoints (object : MapObject) : String :=
  intToString object.x ++ ", " ++ intToString object.y ++ ", " ++
    intToString (object.x + object.width) ++ ", " ++ intToString object.y ++ ", " ++
    intToString (object.x + object.width) ++ ", " ++ intToString (object.y + object.height) ++ ", " ++
    intToString object.x ++ ", " ++ intToString (object.y + object.height)

/-- Source `getCollisionShapeRectangle`. -/
def getCollisionShapeRectangle (id : Nat) (object : MapObject) : String :=
  "[sub_resource type=\"ConvexPolygonShape2D\" id=" ++ natToString id ++
    "]\npoints = PoolVector2Array( " ++ collisionRectanglePoints object ++ " )\n\n"

/-- Renders `coordinateString` of `getNavigationShapePolygon` (the source
duplicates the collision loop verbatim). -/
def navigationPolygonVertices (object : MapObject) : String :=
  stripTrailingCommaWs (object.polygon.foldl
    (fun acc coordinate =>
      acc ++ intToString (object.x + coordinate.x) ++ ", " ++
        intToString (object.y + coordinate.y) ++ ", ")
    "")

/-- Renders the index list `object.polygon.map((_value, index) => index)`
joined with ", ". -/
def navigationPolygonIndices (object : MapObject) : String :=
  joinSep ", " ((List.range object.polygon.length).map natToString)

/-- Source `getNavigationShapePolygon` (including its `PoolIntArray (`
spacing quirk). -/
def getNavigationShapePolygon (id : Nat) (object : MapObject) : String :=
  "[sub_resource type=\"NavigationPolygon\" id=" ++ natToString id ++
    "]\nvertices = PoolVector2Array( " ++ navigationPolygonVertices object ++
    " )\npolygons = [ PoolIntArray ( " ++ navigationPolygonIndices object ++ " ) ]\n\n"

/-- Renders the corner list of `getNavigationShapeRectangle`. -/
def navigationRectangleVertices (object : MapObject) : String :=
  intToString object.x ++ ", " ++ intToString object.y ++ ", " ++
    intToString (object.x + object.width) ++ ", " ++ intToString object.y ++ ", " ++
    intToString (object.x + object.width) ++ ", " ++ intToString (object.y + object.height) ++ ", " ++
    intToString object.x ++ ", " ++ intToString (object.y + object.height)

/-- Source `getNavigationShapeRectangle`. -/
def getNavigationShapeRectangle (id : Nat) (object : MapObject) : String :=
  "[sub_resource type=\"NavigationPolygon\" id=" ++ natToString id ++
    "]\nvertices = PoolVector2Array( " ++ navigationRectangleVertices object ++
    " )\npolygons = [ PoolIntArray( 0, 1, 2, 3 ) ]\n\n"

/-- Source `getShapesTemplate`: one shape-assignment dictionary entry,
including its trailing `", "` separator (stripped once after the tile loop). -/
def getShapesTemplate (coordinates : Nat × Nat) (isOneWay : Bool) (shapeID : Nat) : String :=
  "\x7b\n\"autotile_coord\": Vector2( " ++ natToString coordinates.1 ++ ", " ++
    natToString coordinates.2 ++ " ),\n\"one_way\": " ++
    (if isOneWay then "true" else "false") ++
    ",\n\"one_way_margin\": 1.0,\n\"shape\": SubResource( " ++ natToString shapeID ++
    " ),\n\"shape_transform\": Transform2D( 1, 0, 0, 1, 0, 0 )\n\x7d, "

/-! ## Exporter state and iteration (source lines 12-155) -/

/-- The mutable state of one `GodotTilesetExporter` run: the accumulator
fields of the instance, the two locals of `iterateTiles`
(`autotileCoordinates`, `minNavId`), the `tiled.warn` sink, and a ghost
observation `navIdsUsed` recording the identifier of every navigation shape
actually emitted (in emission order); `navIdsUsed` feeds no other field. -/
structure AccState where
  shapesResources : String
  shapes : String
  navpolyMap : List String
  zIndexMap : List (Nat × Nat × Rat)
  firstShapeID : String
  warnings : List String
  minNavId : Nat
  coords : Nat × Nat
  navIdsUsed : List Nat
  deriving DecidableEq

/-- The warning text of source line 62. -/
def zIndexWarning (id : Nat) (value : String) : String :=
  "Skipping export of godot:z_index on tile with id " ++ natToString id ++
    " because it can not be converted to float. value: " ++ value

/-- Source `exportShapes`: caches the first collision shape id when
`firstShapeID` is the empty string, then appends one shape-assignment entry
for the owning tile's id. -/
def exportShapes (tile : Tile) (isOneWay : Bool) (st : AccState) : AccState :=
  let st1 :=
    if st.firstShapeID = "" then
      { st with firstShapeID := "SubResource( " ++ natToString tile.id ++ " )" }
    else st
  { st1 with shapes := st1.shapes ++ getShapesTemplate st1.coords isOneWay tile.id }

/-- Source `exportNavigationShape`: pushes the coordinate and the
sub-resource reference onto `navpolyMap` (and records the id in the ghost
trace). -/
def exportNavigationShape (id : Nat) (coordinates : Nat × Nat) (st : AccState) : AccState :=
  { st with
      navpolyMap := st.navpolyMap ++
        ["Vector2( " ++ natToString coordinates.1 ++ ", " ++ natToString coordinates.2 ++ " )",
         "SubResource( " ++ natToString id ++ " )"],
      navIdsUsed := st.navIdsUsed ++ [id] }

/-- Source `exportCollisions`: polygon objects produce a polygon shape,
otherwise positive width and height produce a rectangle shape, otherwise
nothing happens. -/
def exportCollisions (object : MapObject) (tile : Tile) (st : AccState) : AccState :=
  let isOneWay := object.type = "one-way"
  if 0 < object.polygon.length then
    exportShapes tile isOneWay
      { st with shapesResources := st.shapesResources ++ getCollisionShapePolygon tile.id object }
  else if 0 < object.width ∧ 0 < object.height then
    exportShapes tile isOneWay
      { st with shapesResources := st.shapesResources ++ getCollisionShapeRectangle tile.id object }
  else st

/-- Source `exportNavigations`: same dispatch as `exportCollisions`, against
the navigation shape builders and the navigation id. -/
def exportNavigations (object : MapObject) (id : Nat) (st : AccState) : AccState :=
  if 0 < object.polygon.length then
    exportNavigationShape id st.coords
      { st with shapesResources := st.shapesResources ++ getNavigationShapePolygon id object }
  else if 0 < object.width ∧ 0 < object.height then
    exportNavigationShape id st.coords
      { st with shapesResources := st.shapesResources ++ getNavigationShapeRectangle id object }
  else st

/-- The per-object body of the loop at source lines 75-87: a navigation
object first increments `minNavId` and is exported with the new value; any
other object goes through `exportCollisions`. -/
def processObject (tile : Tile) (st : AccState) (object : MapObject) : AccState :=
  if object.type = "navigation" then
    exportNavigations object (st.minNavId + 1) { st with minNavId := st.minNavId + 1 }
  else
    exportCollisions object tile st

/-- The column-wrap step at source lines 54-57. -/
def wrapCoord (tilesetColumns : Nat) (p : Nat × Nat) : Nat × Nat :=
  if p.1 + 1 > tilesetColumns then (0, p.2 + 1) else p

/-- The body of the tile loop (source lines 49-92): wrap the autotile
coordinate, handle the `godot:z_index` property, process the tile's objects
when an object group is present, then advance the x coordinate. -/
def processTile (tilesetColumns : Nat) (st : AccState) (tile : Tile) : AccState :=
  let st := { st with coords := wrapCoord tilesetColumns st.coords }
  let st :=
    match tile.zIndexProp with
    | none => st
    | some z =>
      match jsParseFloat z with
      | none => { st with warnings := st.warnings ++ [zIndexWarning tile.id z] }
      | some zf => { st with zIndexMap := st.zIndexMap ++ [(st.coords.1, st.coords.2, zf)] }
  let st :=
    match tile.objectGroup with
    | none => st
    | some objectGroup => objectGroup.objects.foldl (processObject tile) st
  { st with coords := (st.coords.1 + 1, st.coords.2) }

/-- The seed of `minNavId` (source lines 45-47): `reduce(max, 0)` over the
tile ids. -/
def maxTileId (tileset : Tileset) : Nat :=
  tileset.tiles.foldl (fun id tile => max id tile.id) 0

/-- The state a fresh `GodotTilesetExporter` starts from: the constructor's
accumulator initialisation (source lines 17-21) together with the two locals
of `iterateTiles` at their initial values. -/
def initState (tileset : Tileset) : AccState :=
  { shapesResources := ""
    shapes := ""
    navpolyMap := []
    zIndexMap := []
    firstShapeID := "0"
    warnings := []
    minNavId := maxTileId tileset
    coords := (0, 0)
    navIdsUsed := [] }

/-- Source `iterateTiles`: fold the tile loop over the tiles, then strip the
trailing separator from the accumulated shape-assignment list. -/
def iterateTiles (tileset : Tileset) : AccState :=
  let st := tileset.tiles.foldl (processTile tileset.columns) (initState tileset)
  { st with shapes := stripTrailingCommaWs st.shapes }

/-- Renders one z-index map entry of source line 176. -/
def renderZIndexEntry (item : Nat × Nat × Rat) : String :=
  "Vector3( " ++ natToString item.1 ++ ", " ++ natToString item.2.1 ++ ", " ++
    ratToString item.2.2 ++ " )"

/-- Renders the full z-index map of source line 176. -/
def renderZIndexMap (l : List (Nat × Nat × Rat)) : String :=
  joinSep ", " (l.map renderZIndexEntry)

/-- Source `getTilesetTemplate`: the full rendered document, as a function of
the tileset metadata, the sprite image path computed by the constructor, and
the accumulated state. -/
def getTilesetTemplate (tileset : Tileset) (spriteImagePath : String) (st : AccState) : String :=
  "[gd_resource type=\"TileSet\" load_steps=3 format=2]\n\n[ext_resource path=\"res://" ++
    spriteImagePath ++ "\" type=\"Texture\" id=1]\n\n" ++ st.shapesResources ++
    "[resource]\n0/name = \"" ++ tileset.name ++ " 0\"\n0/texture = ExtResource( 1 )\n" ++
    "0/tex_offset = Vector2( 0, 0 )\n0/modulate = Color( 1, 1, 1, 1 )\n0/region = Rect2( " ++
    intToString tileset.margin ++ ", " ++ intToString tileset.margin ++ ", " ++
    intToString (tileset.imageWidth - tileset.margin) ++ ", " ++
    intToString (tileset.imageHeight - tileset.margin) ++
    " )\n0/tile_mode = 2\n0/autotile/icon_coordinate = Vector2( 0, 0 )\n0/autotile/tile_size = Vector2( " ++
    intToString tileset.tileWidth ++ ", " ++ intToString tileset.tileHeight ++
    " )\n0/autotile/spacing = " ++ intToString tileset.tileSpacing ++
    "\n0/autotile/occluder_map = [  ]\n0/autotile/navpoly_map = [ " ++
    joinSep ", " st.navpolyMap ++
    " ]\n0/autotile/priority_map = [  ]\n0/autotile/z_index_map = [ " ++
    renderZIndexMap st.zIndexMap ++
    " ]\n0/occluder_offset = Vector2( 0, 0 )\n0/navigation_offset = Vector2( 0, 0 )\n" ++
    "0/shape_offset = Vector2( 0, 0 )\n0/shape_transform = Transform2D( 1, 0, 0, 1, 0, 0 )\n0/shape = " ++
    st.firstShapeID ++
    "\n0/shape_one_way = false\n0/shape_one_way_margin = 1.0\n0/shapes = [ " ++
    st.shapes ++ " ]\n0/z_index = 0\n"

/-- One invocation of the registered format's `write` callback: a fresh
exporter is constructed, the tiles are iterated and the rendered template is
the text written to `fileName`.  `spriteImagePath` stands for the
`getResPath` result computed in the constructor (path resolution lives in
`utils.mjs`, outside the embedded source); the destination path takes no
part in the rendered text. -/
def writeText (tileset : Tileset) (spriteImagePath : String) (_fileName : String) : String :=
  getTilesetTemplate tileset spriteImagePath (iterateTiles tileset)

/-! ## String toolkit lemmas -/

theorem strExt {s t : String} (h : s.data = t.data) : s = t := by
  cases s; cases t; simp_all

theorem strData_append (s t : String) : (s ++ t).data = s.data ++ t.data := by
  cases s; cases t; rfl

theorem strMk_self (s : String) : String.mk s.data = s := by
  cases s; rfl

theorem strEmpty_append (s : String) : "" ++ s = s := by
  apply strExt
  rw [strData_append]
  rfl

/-- Stripping the trailing separator of a string built as `w ++ ", "` yields
exactly `w`, whatever `w` is. -/
theorem stripTrailingCommaWs_concat (w : String) :
    stripTrailingCommaWs (w ++ ", ") = w := by
  unfold stripTrailingCommaWs
  rw [strData_append]
  have h2 : (", " : String).data = [',', ' '] := rfl
  rw [h2, List.reverse_append]
  have h3 : ([',', ' '] : List Char).reverse = [' ', ','] := rfl
  rw [h3]
  have h4 : (' ' : Char).isWhitespace = true := by decide
  have h5 : (',' : Char).isWhitespace = false := by decide
  simp [List.dropWhile, h4, h5, strMk_self]

/-- A string whose last character is neither whitespace nor a comma. -/
def safeLast (s : String) : Prop :=
  ∃ c, s.data.getLast? = some c ∧ c.isWhitespace = false ∧ c ≠ ','

theorem endsWithCommaWs_empty : endsWithCommaWs "" = false := by decide

theorem endsWithCommaWs_of_safeLast {s : String} (h : safeLast s) :
    endsWithCommaWs s = false := by
  obtain ⟨c, hlast, hws, hc⟩ := h
  unfold endsWithCommaWs
  have hrev : s.data.reverse.head? = some c := by
    rw [List.head?_reverse]; exact hlast
  cases hd : s.data.reverse with
  | nil => rw [hd] at hrev; simp at hrev
  | cons c0 rest =>
    rw [hd] at hrev
    simp only [List.head?] at hrev
    obtain rfl : c0 = c := by injection hrev
    simp [List.dropWhile, hws, hc]

theorem safeLast_append (s t : String) (h : safeLast t) : safeLast (s ++ t) := by
  obtain ⟨c, hlast, hws, hc⟩ := h
  refine ⟨c, ?_, hws, hc⟩
  rw [strData_append]
  have hne : t.data ≠ [] := by
    intro hnil; rw [hnil] at hlast; simp at hlast
  rw [List.getLast?_append_of_ne_nil _ hne]
  exact hlast

theorem safeLast_joinSep (l : List String) (hall : ∀ e ∈ l, safeLast e) (hne : l ≠ []) :
    safeLast (joinSep ", " l) := by
  induction l with
  | nil => exact absurd rfl hne
  | cons x l ih =>
    cases l with
    | nil => simpa [joinSep] using hall x (by simp)
    | cons y l2 =>
      show safeLast (x ++ ", " ++ joinSep ", " (y :: l2))
      exact safeLast_append _ _ (ih (fun e he => hall e (by simp [he])) (by simp))

theorem endsWithCommaWs_joinSep (l : List String) (hall : ∀ e ∈ l, safeLast e) :
    endsWithCommaWs (joinSep ", " l) = false := by
  cases l with
  | nil => exact endsWithCommaWs_empty
  | cons x l =>
    exact endsWithCommaWs_of_safeLast (safeLast_joinSep _ hall (by simp))

theorem digitChar_safe {k : Nat} (h : k < 10) :
    (Nat.digitChar k).isWhitespace = false ∧ Nat.digitChar k ≠ ',' := by
  interval_cases k <;> exact ⟨by decide, by decide⟩

theorem natDigitsAux_getLast {fuel n : Nat} (h : fuel ≠ 0) :
    ∃ k, k < 10 ∧ (natDigitsAux fuel n).getLast? = some (Nat.digitChar k) := by
  cases fuel with
  | zero => exact absurd rfl h
  | succ fuel =>
    unfold natDigitsAux
    by_cases hn : n < 10
    · exact ⟨n, hn, by simp [hn]⟩
    · refine ⟨n % 10, Nat.mod_lt _ (by omega), ?_⟩
      simp [hn, List.getLast?_concat]

theorem natToString_safeLast (n : Nat) : safeLast (natToString n) := by
  obtain ⟨k, hk, hlast⟩ := @natDigitsAux_getLast (n + 1) n (by omega)
  obtain ⟨hws, hc⟩ := digitChar_safe hk
  exact ⟨Nat.digitChar k, hlast, hws, hc⟩

theorem intToString_safeLast (i : Int) : safeLast (intToString i) := by
  cases i with
  | ofNat n => exact natToString_safeLast n
  | negSucc n => exact safeLast_append _ _ (natToString_safeLast (n + 1))

/-- Folding chunk-plus-separator appends over a nonempty list produces the
separator-joined chunks followed by one trailing separator. -/
theorem foldl_chunks {α : Type} (f : α → String) (l : List α) (hne : l ≠ []) :
    ∀ a : String, l.foldl (fun acc c => acc ++ f c ++ ", ") a =
      a ++ joinSep ", " (l.map f) ++ ", " := by
  induction l with
  | nil => exact absurd rfl hne
  | cons c l ih =>
    intro a
    cases l with
    | nil => simp [joinSep, String.append_assoc]
    | cons d l2 =>
      rw [List.foldl_cons, ih (by simp)]
      simp only [List.map_cons]
      show (a ++ f c ++ ", ") ++ joinSep ", " (f d :: l2.map f) ++ ", " =
        a ++ (f c ++ ", " ++ joinSep ", " (f d :: l2.map f)) ++ ", "
      simp [String.append_assoc]

/-! ## Preservation lemmas for the exporter step functions -/

theorem exportShapes_coords (tile : Tile) (b : Bool) (st : AccState) :
    (exportShapes tile b st).coords = st.coords := by
  unfold exportShapes
  split <;> rfl

theorem exportShapes_zIndexMap (tile : Tile) (b : Bool) (st : AccState) :
    (exportShapes tile b st).zIndexMap = st.zIndexMap := by
  unfold exportShapes
  split <;> rfl

theorem exportShapes_warnings (tile : Tile) (b : Bool) (st : AccState) :
    (exportShapes tile b st).warnings = st.warnings := by
  unfold exportShapes
  split <;> rfl

theorem exportShapes_minNavId (tile : Tile) (b : Bool) (st : AccState) :
    (exportShapes tile b st).minNavId = st.minNavId := by
  unfold exportShapes
  split <;> rfl

theorem exportShapes_navIdsUsed (tile : Tile) (b : Bool) (st : AccState) :
    (exportShapes tile b st).navIdsUsed = st.navIdsUsed := by
  unfold exportShapes
  split <;> rfl

theorem exportShapes_navpolyMap (tile : Tile) (b : Bool) (st : AccState) :
    (exportShapes tile b st).navpolyMap = st.navpolyMap := by
  unfold exportShapes
  split <;> rfl

theorem exportCollisions_coords (o : MapObject) (tile : Tile) (st : AccState) :
    (exportCollisions o tile st).coords = st.coords := by
  unfold exportCollisions
  by_cases h1 : 0 < o.polygon.length
  · simp [h1, exportShapes_coords]
  · by_cases h2 : 0 < o.width ∧ 0 < o.height
    · simp [h1, h2, exportShapes_coords]
    · simp [h1, h2]

theorem exportCollisions_zIndexMap (o : MapObject) (tile : Tile) (st : AccState) :
    (exportCollisions o tile st).zIndexMap = st.zIndexMap := by
  unfold exportCollisions
  by_cases h1 : 0 < o.polygon.length
  · simp [h1, exportShapes_zIndexMap]
  · by_cases h2 : 0 < o.width ∧ 0 < o.height
    · simp [h1, h2, exportShapes_zIndexMap]
    · simp [h1, h2]

theorem exportCollisions_warnings (o : MapObject) (tile : Tile) (st : AccState) :
    (exportCollisions o tile st).warnings = st.warnings := by
  unfold exportCollisions
  by_cases h1 : 0 < o.polygon.length
  · simp [h1, exportShapes_warnings]
  · by_cases h2 : 0 < o.width ∧ 0 < o.height
    · simp [h1, h2, exportShapes_warnings]
    · simp [h1, h2]

theorem exportCollisions_minNavId (o : MapObject) (tile : Tile) (st : AccState) :
    (exportCollisions o tile st).minNavId = st.minNavId := by
  unfold exportCollisions
  by_cases h1 : 0 < o.polygon.length
  · simp [h1, exportShapes_minNavId]
  · by_cases h2 : 0 < o.width ∧ 0 < o.height
    · simp [h1, h2, exportShapes_minNavId]
    · simp [h1, h2]

theorem exportCollisions_navIdsUsed (o : MapObject) (tile : Tile) (st : AccState) :
    (exportCollisions o tile st).navIdsUsed = st.navIdsUsed := by
  unfold exportCollisions
  by_cases h1 : 0 < o.polygon.length
  · simp [h1, exportShapes_navIdsUsed]
  · by_cases h2 : 0 < o.width ∧ 0 < o.height
    · simp [h1, h2, exportShapes_navIdsUsed]
    · simp [h1, h2]

theorem exportCollisions_navpolyMap (o : MapObject) (tile : Tile) (st : AccState) :
    (exportCollisions o tile st).navpolyMap = st.navpolyMap := by
  unfold exportCollisions
  by_cases h1 : 0 < o.polygon.length
  · simp [h1, exportShapes_navpolyMap]
  · by_cases h2 : 0 < o.width ∧ 0 < o.height
    · simp [h1, h2, exportShapes_navpolyMap]
    · simp [h1, h2]

theorem exportNavigations_coords (o : MapObject) (id : Nat) (st : AccState) :
    (exportNavigations o id st).coords = st.coords := by
  unfold exportNavigations exportNavigationShape
  split_ifs <;> rfl

theorem exportNavigations_zIndexMap (o : MapObject) (id : Nat) (st : AccState) :
    (exportNavigations o id st).zIndexMap = st.zIndexMap := by
  unfold exportNavigations exportNavigationShape
  split_ifs <;> rfl

theorem exportNavigations_warnings (o : MapObject) (id : Nat) (st : AccState) :
    (exportNavigations o id st).warnings = st.warnings := by
  unfold exportNavigations exportNavigationShape
  split_ifs <;> rfl

theorem exportNavigations_minNavId (o : MapObject) (id : Nat) (st : AccState) :
    (exportNavigations o id st).minNavId = st.minNavId := by
  unfold exportNavigations exportNavigationShape
  split_ifs <;> rfl

theorem exportNavigations_shapes (o : MapObject) (id : Nat) (st : AccState) :
    (exportNavigations o id st).shapes = st.shapes := by
  unfold exportNavigations exportNavigationShape
  split_ifs <;> rfl

theorem exportNavigations_navIdsUsed (o : MapObject) (id : Nat) (st : AccState) :
    (exportNavigations o id st).navIdsUsed = st.navIdsUsed ∨
      (exportNavigations o id st).navIdsUsed = st.navIdsUsed ++ [id] := by
  unfold exportNavigations exportNavigationShape
  split_ifs
  · right; rfl
  · right; rfl
  · left; rfl

theorem processObject_coords (tile : Tile) (st : AccState) (o : MapObject) :
    (processObject tile st o).coords = st.coords := by
  unfold processObject
  by_cases h : o.type = "navigation" <;>
    simp [h, exportNavigations_coords, exportCollisions_coords]

theorem processObject_zIndexMap (tile : Tile) (st : AccState) (o : MapObject) :
    (processObject tile st o).zIndexMap = st.zIndexMap := by
  unfold processObject
  by_cases h : o.type = "navigation" <;>
    simp [h, exportNavigations_zIndexMap, exportCollisions_zIndexMap]

theorem processObject_warnings (tile : Tile) (st : AccState) (o : MapObject) :
    (processObject tile st o).warnings = st.warnings := by
  unfold processObject
  by_cases h : o.type = "navigation" <;>
    simp [h, exportNavigations_warnings, exportCollisions_warnings]

theorem foldl_processObject_coords (tile : Tile) (l : List MapObject) (st : AccState) :
    (l.foldl (processObject tile) st).coords = st.coords := by
  induction l generalizing st with
  | nil => rfl
  | cons o l ih => rw [List.foldl_cons, ih, processObject_coords]

theorem foldl_processObject_zIndexMap (tile : Tile) (l : List MapObject) (st : AccState) :
    (l.foldl (processObject tile) st).zIndexMap = st.zIndexMap := by
  induction l generalizing st with
  | nil => rfl
  | cons o l ih => rw [List.foldl_cons, ih, processObject_zIndexMap]

theorem foldl_processObject_warnings (tile : Tile) (l : List MapObject) (st : AccState) :
    (l.foldl (processObject tile) st).warnings = st.warnings := by
  induction l generalizing st with
  | nil => rfl
  | cons o l ih => rw [List.foldl_cons, ih, processObject_warnings]

/-- One application of the column-wrap followed by the x increment. -/
def coordStep (tilesetColumns : Nat) (p : Nat × Nat) : Nat × Nat :=
  ((wrapCoord tilesetColumns p).1 + 1, (wrapCoord tilesetColumns p).2)

/-- The autotile coordinate advances by exactly one step per tile, whatever
the tile's z-index property and objects are. -/
theorem processTile_coords (C : Nat) (st : AccState) (t : Tile) :
    (processTile C st t).coords = coordStep C st.coords := by
  unfold processTile coordStep
  cases hz : t.zIndexProp with
  | none =>
    cases hog : t.objectGroup <;> simp [hog, foldl_processObject_coords]
  | some z =>
    cases hp : jsParseFloat z <;> cases hog : t.objectGroup <;>
      simp [hp, hog, foldl_processObject_coords]

/-! ## Autotile coordinate arithmetic -/

/-- The coordinate sequence of the tile loop, stripped of all other state:
`cIter C i` is the value of `autotileCoordinates` just before the loop body
of tile `i` runs its wrap step. -/
def cIter (C : Nat) : Nat → Nat × Nat
  | 0 => (0, 0)
  | i + 1 => coordStep C (cIter C i)

theorem cIter_spec (C : Nat) (hC : 1 ≤ C) :
    ∀ i, wrapCoord C (cIter C i) = (i % C, i / C) := by
  have step : ∀ i, wrapCoord C (cIter C i) = (i % C, i / C) →
      wrapCoord C (cIter C (i + 1)) = ((i + 1) % C, (i + 1) / C) := by
    intro i ih
    have hsucc : cIter C (i + 1) = (i % C + 1, i / C) := by
      show coordStep C (cIter C i) = _
      rw [coordStep, ih]
    rw [hsucc]
    have hm : i % C < C := Nat.mod_lt _ (by omega)
    have hdm : C * (i / C) + i % C = i := Nat.div_add_mod i C
    by_cases hedge : i % C + 1 = C
    · have hrepr : i + 1 = C * (i / C + 1) := by
        rw [Nat.mul_succ]
        omega
      have hmod : (i + 1) % C = 0 := by
        rw [hrepr, Nat.mul_mod_right]
      have hdiv : (i + 1) / C = i / C + 1 := by
        rw [hrepr, Nat.mul_div_cancel_left _ (by omega : 0 < C)]
      unfold wrapCoord
      rw [hmod, hdiv]
      simp
      omega
    · have hlt : i % C + 1 < C := by omega
      have hrepr : i + 1 = C * (i / C) + (i % C + 1) := by omega
      have hmod : (i + 1) % C = i % C + 1 := by
        rw [hrepr, Nat.mul_add_mod, Nat.mod_eq_of_lt hlt]
      have hdiv : (i + 1) / C = i / C := by
        rw [hrepr, Nat.mul_add_div (by omega : 0 < C), Nat.div_eq_of_lt hlt]
        omega
      unfold wrapCoord
      rw [hmod, hdiv]
      simp
      omega
  intro i
  induction i with
  | zero =>
    unfold cIter wrapCoord
    have : ¬ ((0 : Nat) + 1 > C) := by omega
    simp [this]
  | succ i ih => exact step i ih

theorem cIter_succ (C : Nat) (hC : 1 ≤ C) (i : Nat) :
    cIter C (i + 1) = (i % C + 1, i / C) := by
  show coordStep C (cIter C i) = _
  rw [coordStep, cIter_spec C hC i]

/-- The exporter state after the first `i` tiles have been processed. -/
def stateAfter (tileset : Tileset) (i : Nat) : AccState :=
  (tileset.tiles.take i).foldl (processTile tileset.columns) (initState tileset)

/-- The autotile coordinate recorded for tile `i`: the wrap step applied to
the loop state entering iteration `i`; every entry generated while tile `i`
is processed carries this coordinate. -/
def autotileCoordOfTile (tileset : Tileset) (i : Nat) : Nat × Nat :=
  wrapCoord tileset.columns (stateAfter tileset i).coords

theorem stateAfter_succ (ts : Tileset) (i : Nat) (hi : i < ts.tiles.length) :
    stateAfter ts (i + 1) =
      processTile ts.columns (stateAfter ts i) (ts.tiles.get ⟨i, hi⟩) := by
  unfold stateAfter
  rw [List.take_succ, List.foldl_append]
  rw [List.getElem?_eq_getElem hi]
  rfl

theorem stateAfter_coords (ts : Tileset) :
    ∀ i, i ≤ ts.tiles.length → (stateAfter ts i).coords = cIter ts.columns i := by
  intro i
  induction i with
  | zero => intro _; rfl
  | succ i ih =>
    intro hi
    have hlt : i < ts.tiles.length := by omega
    rw [stateAfter_succ ts i hlt, processTile_coords, ih (by omega)]
    rfl

/-! ## Navigation identifier invariant -/

/-- Invariant tying the navigation counter to the identifiers already used:
the counter never drops below its seed `m0`, the used identifiers are
strictly increasing, and each used identifier lies in `(m0, counter]`. -/
def navInv (m0 : Nat) (st : AccState) : Prop :=
  m0 ≤ st.minNavId ∧ List.Chain' (· < ·) st.navIdsUsed ∧
    ∀ id ∈ st.navIdsUsed, m0 < id ∧ id ≤ st.minNavId

theorem chainLt_append_singleton {l : List Nat} {a : Nat}
    (h : List.Chain' (· < ·) l) (hb : ∀ x ∈ l, x < a) :
    List.Chain' (· < ·) (l ++ [a]) := by
  induction l with
  | nil => simp
  | cons x xs ih =>
    rcases xs with _ | ⟨y, ys⟩
    · simpa using hb x (by simp)
    · simp only [List.cons_append, List.chain'_cons] at h ⊢
      exact ⟨h.1, ih h.2 (fun z hz => hb z (by simp [hz]))⟩

theorem processObject_navInv {m0 : Nat} (tile : Tile) (st : AccState) (o : MapObject)
    (h : navInv m0 st) : navInv m0 (processObject tile st o) := by
  obtain ⟨h1, h2, h3⟩ := h
  unfold processObject
  by_cases hnav : o.type = "navigation"
  · rw [if_pos hnav]
    have hmin : (exportNavigations o (st.minNavId + 1)
        { st with minNavId := st.minNavId + 1 }).minNavId = st.minNavId + 1 :=
      exportNavigations_minNavId o (st.minNavId + 1) _
    rcases exportNavigations_navIdsUsed o (st.minNavId + 1)
        { st with minNavId := st.minNavId + 1 } with hids | hids
    · refine ⟨?_, ?_, ?_⟩
      · rw [hmin]; omega
      · rw [hids]; exact h2
      · intro id hid
        rw [hids] at hid
        have := h3 id hid
        rw [hmin]
        omega
    · refine ⟨?_, ?_, ?_⟩
      · rw [hmin]; omega
      · rw [hids]
        exact chainLt_append_singleton h2 (fun x hx => by have := h3 x hx; omega)
      · intro id hid
        rw [hids] at hid
        rcases List.mem_append.mp hid with hmem | hmem
        · have := h3 id hmem
          rw [hmin]
          omega
        · simp only [List.mem_singleton] at hmem
          subst hmem
          rw [hmin]
          omega
  · rw [if_neg hnav]
    refine ⟨?_, ?_, ?_⟩
    · rw [exportCollisions_minNavId]; exact h1
    · rw [exportCollisions_navIdsUsed]; exact h2
    · intro id hid
      rw [exportCollisions_navIdsUsed] at hid
      rw [exportCollisions_minNavId]
      exact h3 id hid

theorem foldl_processObject_navInv {m0 : Nat} (tile : Tile) (l : List MapObject)
    (st : AccState) (h : navInv m0 st) :
    navInv m0 (l.foldl (processObject tile) st) := by
  induction l generalizing st with
  | nil => exact h
  | cons o l ih => exact ih _ (processObject_navInv tile st o h)

theorem processTile_navInv {m0 : Nat} (C : Nat) (st : AccState) (t : Tile)
    (h : navInv m0 st) : navInv m0 (processTile C st t) := by
  unfold processTile
  cases hz : t.zIndexProp with
  | none =>
    cases hog : t.objectGroup with
    | none => exact h
    | some og => exact foldl_processObject_navInv t og.objects _ h
  | some z =>
    cases hp : jsParseFloat z with
    | none =>
      cases hog : t.objectGroup with
      | none => simp only [hp]; exact h
      | some og => simp only [hp]; exact foldl_processObject_navInv t og.objects _ h
    | some zf =>
      cases hog : t.objectGroup with
      | none => simp only [hp]; exact h
      | some og => simp only [hp]; exact foldl_processObject_navInv t og.objects _ h

theorem foldl_processTile_navInv {m0 : Nat} (C : Nat) (l : List Tile) (st : AccState)
    (h : navInv m0 st) : navInv m0 (l.foldl (processTile C) st) := by
  induction l generalizing st with
  | nil => exact h
  | cons t l ih => exact ih _ (processTile_navInv C st t h)

theorem iterateTiles_navInv (ts : Tileset) :
    navInv (maxTileId ts) (iterateTiles ts) := by
  have hinit : navInv (maxTileId ts) (initState ts) := by
    refine ⟨Nat.le_refl _, ?_, ?_⟩
    · simp [initState]
    · intro id hid
      simp [initState] at hid
  exact foldl_processTile_navInv ts.columns ts.tiles _ hinit

/-! ## Shape-assignment list well-formedness -/

/-- The accumulated `shapes` string is either empty or a prefix followed by
the closing brace and the one trailing separator of the last entry. -/
def shapesWF (s : String) : Prop := s = "" ∨ ∃ w, s = w ++ "\x7d, "

theorem getShapesTemplate_split (c : Nat × Nat) (b : Bool) (id : Nat) :
    ∃ w, getShapesTemplate c b id = w ++ "\x7d, " := by
  have h : (" ),\n\"shape_transform\": Transform2D( 1, 0, 0, 1, 0, 0 )\n\x7d, " : String) =
      " ),\n\"shape_transform\": Transform2D( 1, 0, 0, 1, 0, 0 )\n" ++ "\x7d, " := by decide
  unfold getShapesTemplate
  rw [h]
  exact ⟨_, (String.append_assoc _ _ _).symm⟩

theorem shapesWF_append_template (s : String) (c : Nat × Nat) (b : Bool) (id : Nat) :
    shapesWF (s ++ getShapesTemplate c b id) := by
  obtain ⟨w, hw⟩ := getShapesTemplate_split c b id
  exact Or.inr ⟨s ++ w, by rw [hw, ← String.append_assoc]⟩

theorem exportShapes_shapes (tile : Tile) (b : Bool) (st : AccState) :
    (exportShapes tile b st).shapes = st.shapes ++ getShapesTemplate st.coords b tile.id := by
  unfold exportShapes
  split <;> rfl

theorem exportCollisions_shapesWF (o : MapObject) (tile : Tile) (st : AccState)
    (h : shapesWF st.shapes) : shapesWF (exportCollisions o tile st).shapes := by
  unfold exportCollisions
  by_cases h1 : 0 < o.polygon.length
  · simp only [h1, if_true, exportShapes_shapes]
    exact shapesWF_append_template _ _ _ _
  · by_cases h2 : 0 < o.width ∧ 0 < o.height
    · simp [h1, h2, exportShapes_shapes]
      exact shapesWF_append_template _ _ _ _
    · simp [h1, h2]
      exact h

theorem processObject_shapesWF (tile : Tile) (st : AccState) (o : MapObject)
    (h : shapesWF st.shapes) : shapesWF (processObject tile st o).shapes := by
  unfold processObject
  by_cases hnav : o.type = "navigation"
  · rw [if_pos hnav, exportNavigations_shapes]
    exact h
  · rw [if_neg hnav]
    exact exportCollisions_shapesWF o tile st h

theorem foldl_processObject_shapesWF (tile : Tile) (l : List MapObject) (st : AccState)
    (h : shapesWF st.shapes) : shapesWF ((l.foldl (processObject tile) st).shapes) := by
  induction l generalizing st with
  | nil => exact h
  | cons o l ih => exact ih _ (processObject_shapesWF tile st o h)

theorem processTile_shapesWF (C : Nat) (st : AccState) (t : Tile)
    (h : shapesWF st.shapes) : shapesWF (processTile C st t).shapes := by
  unfold processTile
  cases hz : t.zIndexProp with
  | none =>
    cases hog : t.objectGroup with
    | none => exact h
    | some og => exact foldl_processObject_shapesWF t og.objects _ h
  | some z =>
    cases hp : jsParseFloat z with
    | none =>
      cases hog : t.objectGroup with
      | none => simp only [hp]; exact h
      | some og => simp only [hp]; exact foldl_processObject_shapesWF t og.objects _ h
    | some zf =>
      cases hog : t.objectGroup with
      | none => simp only [hp]; exact h
      | some og => simp only [hp]; exact foldl_processObject_shapesWF t og.objects _ h

theorem foldl_processTile_shapesWF (C : Nat) (l : List Tile) (st : AccState)
    (h : shapesWF st.shapes) : shapesWF ((l.foldl (processTile C) st).shapes) := by
  induction l generalizing st with
  | nil => exact h
  | cons t l ih => exact ih _ (processTile_shapesWF C st t h)

theorem iterateTiles_shapes_noTrailing (ts : Tileset) :
    endsWithCommaWs (iterateTiles ts).shapes = false := by
  have hwf : shapesWF ((ts.tiles.foldl (processTile ts.columns) (initState ts)).shapes) :=
    foldl_processTile_shapesWF ts.columns ts.tiles _ (Or.inl rfl)
  show endsWithCommaWs
    (stripTrailingCommaWs ((ts.tiles.foldl (processTile ts.columns) (initState ts)).shapes)) = false
  rcases hwf with hw | ⟨w, hw⟩
  · rw [hw]
    decide
  · rw [hw]
    have hbr : ("\x7d, " : String) = "\x7d" ++ ", " := by decide
    rw [hbr, ← String.append_assoc, stripTrailingCommaWs_concat]
    exact endsWithCommaWs_of_safeLast
      (safeLast_append _ _ ⟨'\x7d', by decide, by decide, by decide⟩)

/-! ## Navigation map entry well-formedness -/

/-- Every entry pushed onto `navpolyMap` ends in a closing parenthesis. -/
def navpolyWF (st : AccState) : Prop := ∀ e ∈ st.navpolyMap, safeLast e

theorem exportNavigationShape_navpolyWF (id : Nat) (c : Nat × Nat) (st : AccState)
    (h : navpolyWF st) : navpolyWF (exportNavigationShape id c st) := by
  intro e he
  have hsafe : safeLast (" )" : String) := ⟨')', by decide, by decide, by decide⟩
  have he' : e ∈ st.navpolyMap ++
      ["Vector2( " ++ natToString c.1 ++ ", " ++ natToString c.2 ++ " )",
       "SubResource( " ++ natToString id ++ " )"] := he
  rcases List.mem_append.mp he' with hmem | hmem
  · exact h e hmem
  · simp only [List.mem_cons, List.not_mem_nil, or_false] at hmem
    rcases hmem with hmem | hmem <;> (rw [hmem]; exact safeLast_append _ _ hsafe)

theorem exportNavigations_navpolyWF (o : MapObject) (id : Nat) (st : AccState)
    (h : navpolyWF st) : navpolyWF (exportNavigations o id st) := by
  unfold exportNavigations
  split_ifs
  · exact exportNavigationShape_navpolyWF _ _ _ (fun e he => h e he)
  · exact exportNavigationShape_navpolyWF _ _ _ (fun e he => h e he)
  · exact h

theorem processObject_navpolyWF (tile : Tile) (st : AccState) (o : MapObject)
    (h : navpolyWF st) : navpolyWF (processObject tile st o) := by
  unfold processObject
  by_cases hnav : o.type = "navigation"
  · rw [if_pos hnav]
    exact exportNavigations_navpolyWF _ _ _ (fun e he => h e he)
  · rw [if_neg hnav]
    intro e he
    rw [exportCollisions_navpolyMap] at he
    exact h e he

theorem foldl_processObject_navpolyWF (tile : Tile) (l : List MapObject) (st : AccState)
    (h : navpolyWF st) : navpolyWF (l.foldl (processObject tile) st) := by
  induction l generalizing st with
  | nil => exact h
  | cons o l ih => exact ih _ (processObject_navpolyWF tile st o h)

theorem processTile_navpolyWF (C : Nat) (st : AccState) (t : Tile)
    (h : navpolyWF st) : navpolyWF (processTile C st t) := by
  unfold processTile
  cases hz : t.zIndexProp with
  | none =>
    cases hog : t.objectGroup with
    | none => exact fun e he => h e he
    | some og => exact foldl_processObject_navpolyWF t og.objects _ (fun d hd => h d hd)
  | some z =>
    cases hp : jsParseFloat z with
    | none =>
      cases hog : t.objectGroup with
      | none => simp only [hp]; exact fun e he => h e he
      | some og =>
        simp only [hp]
        exact foldl_processObject_navpolyWF t og.objects _ (fun d hd => h d hd)
    | some zf =>
      cases hog : t.objectGroup with
      | none => simp only [hp]; exact fun e he => h e he
      | some og =>
        simp only [hp]
        exact foldl_processObject_navpolyWF t og.objects _ (fun d hd => h d hd)

theorem foldl_processTile_navpolyWF (C : Nat) (l : List Tile) (st : AccState)
    (h : navpolyWF st) : navpolyWF (l.foldl (processTile C) st) := by
  induction l generalizing st with
  | nil => exact h
  | cons t l ih => exact ih _ (processTile_navpolyWF C st t h)

theorem iterateTiles_navpolyWF (ts : Tileset) : navpolyWF (iterateTiles ts) := by
  have hfold : navpolyWF (ts.tiles.foldl (processTile ts.columns) (initState ts)) := by
    apply foldl_processTile_navpolyWF
    intro e he
    simp [initState] at he
  exact fun e he => hfold e he

/-! ## Rendered point and index lists -/

theorem polygonPoints_eq (object : MapObject) :
    stripTrailingCommaWs (object.polygon.foldl
      (fun acc coordinate =>
        acc ++ intToString (object.x + coordinate.x) ++ ", " ++
          intToString (object.y + coordinate.y) ++ ", ")
      "") =
    joinSep ", " (object.polygon.map
      (fun coordinate => intToString (object.x + coordinate.x) ++ ", " ++
        intToString (object.y + coordinate.y))) := by
  have hfun : (fun (acc : String) (coordinate : Point) =>
      acc ++ intToString (object.x + coordinate.x) ++ ", " ++
        intToString (object.y + coordinate.y) ++ ", ") =
      (fun (acc : String) (coordinate : Point) =>
        acc ++ (intToString (object.x + coordinate.x) ++ ", " ++
          intToString (object.y + coordinate.y)) ++ ", ") := by
    funext acc coordinate
    simp [String.append_assoc]
  cases hp : object.polygon with
  | nil => rfl
  | cons c l =>
    rw [hfun, foldl_chunks _ (c :: l) (by simp) ""]
    rw [stripTrailingCommaWs_concat, strEmpty_append]

theorem collisionPolygonPoints_eq (object : MapObject) :
    collisionPolygonPoints object =
      joinSep ", " (object.polygon.map
        (fun coordinate => intToString (object.x + coordinate.x) ++ ", " ++
          intToString (object.y + coordinate.y))) :=
  polygonPoints_eq object

theorem navigationPolygonVertices_eq (object : MapObject) :
    navigationPolygonVertices object =
      joinSep ", " (object.polygon.map
        (fun coordinate => intToString (object.x + coordinate.x) ++ ", " ++
          intToString (object.y + coordinate.y))) :=
  polygonPoints_eq object

theorem pairString_safeLast (a b : Int) :
    safeLast (intToString a ++ ", " ++ intToString b) :=
  safeLast_append _ _ (intToString_safeLast b)

theorem exportShapes_shapesResources (tile : Tile) (b : Bool) (st : AccState) :
    (exportShapes tile b st).shapesResources = st.shapesResources := by
  unfold exportShapes
  split <;> rfl

/-! ## Concrete inputs for the claim instances -/

/-- A tileset with one tile carrying one plain collision rectangle. -/
def tsC1 : Tileset :=
  { name := "terrain", margin := 0, imageWidth := 16, imageHeight := 16,
    tileWidth := 16, tileHeight := 16, tileSpacing := 0, columns := 1,
    tiles := [{ id := 0, zIndexProp := none,
                objectGroup := some ⟨[{ type := "", polygon := [], x := 0, y := 0,
                                        width := 16, height := 16 }]⟩ }] }

/-- A navigation object with empty polygon and no positive extent. -/
def navDegenerate : MapObject :=
  { type := "navigation", polygon := [], x := 0, y := 0, width := 0, height := 0 }

/-- A navigation rectangle that does produce a shape. -/
def navSquare : MapObject :=
  { type := "navigation", polygon := [], x := 0, y := 0, width := 16, height := 16 }

/-- A tile owning the degenerate navigation object followed by a real one. -/
def tileC2 : Tile :=
  { id := 0, zIndexProp := none, objectGroup := some ⟨[navDegenerate, navSquare]⟩ }

def tsC2 : Tileset :=
  { name := "nav", margin := 0, imageWidth := 16, imageHeight := 16,
    tileWidth := 16, tileHeight := 16, tileSpacing := 0, columns := 1,
    tiles := [tileC2] }

/-- A tile with no z-index property and no objects. -/
def blankTile : Tile := { id := 0, zIndexProp := none, objectGroup := none }

/-- Three object-less tiles over two columns. -/
def tsC3 : Tileset :=
  { name := "grid", margin := 0, imageWidth := 32, imageHeight := 32,
    tileWidth := 16, tileHeight := 16, tileSpacing := 0, columns := 2,
    tiles := [blankTile, blankTile, blankTile] }

def tsC4 : Tileset :=
  { name := "nav2", margin := 0, imageWidth := 16, imageHeight := 16,
    tileWidth := 16, tileHeight := 16, tileSpacing := 0, columns := 1,
    tiles := [{ id := 1, zIndexProp := none, objectGroup := some ⟨[navSquare]⟩ }] }

def tileZGood : Tile := { id := 4, zIndexProp := some "1.5", objectGroup := none }

def tileZBad : Tile := { id := 9, zIndexProp := some "abc", objectGroup := none }

def stW5 : AccState :=
  initState { name := "z", margin := 0, imageWidth := 16, imageHeight := 16,
              tileWidth := 16, tileHeight := 16, tileSpacing := 0, columns := 1, tiles := [] }

/-- The 4-point polygon of the specification example, anchored at (5, 5). -/
def polyExample : MapObject :=
  { type := "", polygon := [⟨0, 0⟩, ⟨10, 0⟩, ⟨10, 10⟩, ⟨0, 10⟩],
    x := 5, y := 5, width := 0, height := 0 }

/-- The rectangle of the specification example: anchor (2, 3), width 4, height 6. -/
def rectExample : MapObject :=
  { type := "", polygon := [], x := 2, y := 3, width := 4, height := 6 }

def rectA : MapObject := { type := "", polygon := [], x := 0, y := 0, width := 1, height := 1 }

def rectB : MapObject := { type := "", polygon := [], x := 1, y := 1, width := 2, height := 2 }

/-- One tile with id 7 owning two collision rectangles. -/
def tileC10 : Tile := { id := 7, zIndexProp := none, objectGroup := some ⟨[rectA, rectB]⟩ }

def tsC10 : Tileset :=
  { name := "dup", margin := 0, imageWidth := 16, imageHeight := 16,
    tileWidth := 16, tileHeight := 16, tileSpacing := 0, columns := 1,
    tiles := [tileC10] }

/-! ## The claims -/

set_option maxRecDepth 8000 in
set_option maxHeartbeats 2000000 in
/-- C1: the source intends the first collision shape's identifier to be
cached in `firstShapeID` and referenced by the `0/shape` field, but the
caching branch tests for the empty string while the constructor initialises
the field to "0", so the branch is dead: even after a collision shape is
built, the rendered document still reads `0/shape = 0` and never a
`SubResource` reference.  This theorem exhibits the divergence on a tileset
with one collision rectangle: the whole rendered document is computed, and
its `0/shape` line reads `0/shape = 0`. -/
theorem claim1_first_shape_fallback :
    (iterateTiles tsC1).shapesResources ≠ "" ∧
    (iterateTiles tsC1).shapes ≠ "" ∧
    (iterateTiles tsC1).firstShapeID = "0" ∧
    getTilesetTemplate tsC1 "tileset.png" (iterateTiles tsC1) =
      "[gd_resource type=\"TileSet\" load_steps=3 format=2]\n\n[ext_resource path=\"res://tileset.png\" type=\"Texture\" id=1]\n\n[sub_resource type=\"ConvexPolygonShape2D\" id=0]\npoints = PoolVector2Array( 0, 0, 16, 0, 16, 16, 0, 16 )\n\n[resource]\n0/name = \"terrain 0\"\n0/texture = ExtResource( 1 )\n0/tex_offset = Vector2( 0, 0 )\n0/modulate = Color( 1, 1, 1, 1 )\n0/region = Rect2( 0, 0, 16, 16 )\n0/tile_mode = 2\n0/autotile/icon_coordinate = Vector2( 0, 0 )\n0/autotile/tile_size = Vector2( 16, 16 )\n0/autotile/spacing = 0\n0/autotile/occluder_map = [  ]\n0/autotile/navpoly_map = [  ]\n0/autotile/priority_map = [  ]\n0/autotile/z_index_map = [  ]\n0/occluder_offset = Vector2( 0, 0 )\n0/navigation_offset = Vector2( 0, 0 )\n0/shape_offset = Vector2( 0, 0 )\n0/shape_transform = Transform2D( 1, 0, 0, 1, 0, 0 )\n0/shape = 0\n0/shape_one_way = false\n0/shape_one_way_margin = 1.0\n0/shapes = [ \x7b\n\"autotile_coord\": Vector2( 0, 0 ),\n\"one_way\": false,\n\"one_way_margin\": 1.0,\n\"shape\": SubResource( 0 ),\n\"shape_transform\": Transform2D( 1, 0, 0, 1, 0, 0 )\n\x7d ]\n0/z_index = 0\n" := by
  refine ⟨by decide, by decide, by decide, by decide⟩

/-- C2 counterexample: processing a degenerate navigation object is not a
complete no-op: the navigation id counter advances, observably (the tileset
with a degenerate navigation object before a real one emits navigation id 2,
not 1). -/
theorem claim2_counterexample :
    (processObject tileC2 (initState tsC2) navDegenerate).minNavId ≠
      (initState tsC2).minNavId ∧
    (iterateTiles tsC2).navIdsUsed = [2] := by
  refine ⟨by decide, by decide⟩

/-- C2 amended: for an object with empty polygon and no positive extent,
processing emits no shape text, adds no entry, logs nothing and leaves the
state unchanged, except that for a "navigation"-typed object the navigation
id counter is still incremented (the reserved identifier is never used). -/
theorem claim2_degenerate_object (tile : Tile) (st : AccState) (o : MapObject)
    (hpoly : o.polygon = []) (hdim : ¬ (0 < o.width ∧ 0 < o.height)) :
    processObject tile st o =
      if o.type = "navigation" then { st with minNavId := st.minNavId + 1 } else st := by
  have hlen : ¬ 0 < o.polygon.length := by rw [hpoly]; simp
  by_cases hnav : o.type = "navigation"
  · simp [processObject, exportNavigations, hnav, hlen, hdim]
  · simp [processObject, exportCollisions, hnav, hlen, hdim]

theorem claim2_degenerate_object_witness :
    processObject tileC2 (initState tsC2) navDegenerate =
      { initState tsC2 with minNavId := (initState tsC2).minNavId + 1 } :=
  (claim2_degenerate_object tileC2 (initState tsC2) navDegenerate rfl (by decide)).trans
    (by decide)

/-- C3: with column count `C ≥ 1`, the autotile coordinate recorded for the
`i`-th tile is exactly `(i % C, i / C)`; the loop state after tile `i` is
that coordinate with `x` advanced by one, and each tile advances the
coordinate exactly one step regardless of its z-index property or objects. -/
theorem claim3_autotile_coordinates (ts : Tileset) (hC : 1 ≤ ts.columns)
    (i : Nat) (hi : i < ts.tiles.length) :
    autotileCoordOfTile ts i = (i % ts.columns, i / ts.columns) ∧
    (stateAfter ts (i + 1)).coords = (i % ts.columns + 1, i / ts.columns) ∧
    ∀ (st : AccState) (t : Tile),
      (processTile ts.columns st t).coords = coordStep ts.columns st.coords := by
  refine ⟨?_, ?_, fun st t => processTile_coords _ _ _⟩
  · unfold autotileCoordOfTile
    rw [stateAfter_coords ts i (by omega), cIter_spec ts.columns hC i]
  · rw [stateAfter_coords ts (i + 1) (by omega), cIter_succ ts.columns hC i]

theorem claim3_autotile_coordinates_witness :
    autotileCoordOfTile tsC3 2 = (0, 1) := by
  have h := (claim3_autotile_coordinates tsC3 (by decide) 2 (by decide)).1
  simpa using h

/-- C4: the navigation identifiers actually used, in generation order, are
strictly increasing and all exceed the maximum tile id; the counter is
seeded with `reduce(max, 0)` over the tile ids. -/
theorem claim4_navigation_ids (ts : Tileset) :
    List.Chain' (· < ·) (iterateTiles ts).navIdsUsed ∧
    (∀ id ∈ (iterateTiles ts).navIdsUsed, maxTileId ts < id) ∧
    (initState ts).minNavId = maxTileId ts := by
  obtain ⟨h1, h2, h3⟩ := iterateTiles_navInv ts
  exact ⟨h2, fun id hid => (h3 id hid).1, rfl⟩

theorem claim4_navigation_ids_witness : maxTileId tsC4 < 2 :=
  (claim4_navigation_ids tsC4).2.1 2 (by decide)

/-- C5: when a tile's z-index property parses, exactly one triple at the
tile's autotile coordinate is appended to the z-index map and nothing is
logged; when it does not parse, no triple is appended and exactly the
warning naming the tile id and the raw value is logged. -/
theorem claim5_z_index (C : Nat) (st : AccState) (t : Tile) (s : String)
    (hs : t.zIndexProp = some s) :
    (jsParseFloat s = none →
      (processTile C st t).zIndexMap = st.zIndexMap ∧
      (processTile C st t).warnings = st.warnings ++ [zIndexWarning t.id s]) ∧
    (∀ v, jsParseFloat s = some v →
      (processTile C st t).zIndexMap =
        st.zIndexMap ++ [((wrapCoord C st.coords).1, (wrapCoord C st.coords).2, v)] ∧
      (processTile C st t).warnings = st.warnings) := by
  constructor
  · intro hnone
    unfold processTile
    cases hog : t.objectGroup with
    | none => simp [hs, hnone]
    | some og => simp [hs, hnone, foldl_processObject_zIndexMap, foldl_processObject_warnings]
  · intro v hv
    unfold processTile
    cases hog : t.objectGroup with
    | none => simp [hs, hv]
    | some og => simp [hs, hv, foldl_processObject_zIndexMap, foldl_processObject_warnings]

theorem claim5_z_index_witness :
    ((processTile 1 stW5 tileZGood).zIndexMap = [(0, 0, mkRat 3 2)] ∧
     (processTile 1 stW5 tileZGood).warnings = []) ∧
    ((processTile 1 stW5 tileZBad).zIndexMap = [] ∧
     (processTile 1 stW5 tileZBad).warnings = [zIndexWarning 9 "abc"]) := by
  constructor
  · have h := (claim5_z_index 1 stW5 tileZGood "1.5" rfl).2 (mkRat 3 2) (by decide)
    exact ⟨h.1.trans (by decide), h.2.trans (by decide)⟩
  · have h := (claim5_z_index 1 stW5 tileZBad "abc" rfl).1 (by decide)
    exact ⟨h.1.trans (by decide), h.2.trans (by decide)⟩

/-- C6: for any object, the emitted polygon vertex list (collision and
navigation alike) is the object's anchor added pointwise to each relative
polygon point, rendered in the original point order; on the specification's
4-point example anchored at (5, 5) this yields 5,5, 15,5, 15,15, 5,15. -/
theorem claim6_polygon_vertices :
    (∀ object : MapObject,
      collisionPolygonPoints object =
        joinSep ", " (object.polygon.map
          (fun p => intToString (object.x + p.x) ++ ", " ++ intToString (object.y + p.y))) ∧
      navigationPolygonVertices object =
        joinSep ", " (object.polygon.map
          (fun p => intToString (object.x + p.x) ++ ", " ++ intToString (object.y + p.y)))) ∧
    collisionPolygonPoints polyExample = "5, 5, 15, 5, 15, 15, 5, 15" ∧
    navigationPolygonVertices polyExample = "5, 5, 15, 5, 15, 15, 5, 15" :=
  ⟨fun o => ⟨collisionPolygonPoints_eq o, navigationPolygonVertices_eq o⟩,
   by decide, by decide⟩

/-- C7: for a rectangle object (empty polygon, positive width and height)
the emitted corner list is top-left, top-right, bottom-right, bottom-left in
clockwise order, for the collision and the navigation builder alike. -/
theorem claim7_rectangle_corners (object : MapObject) (hpoly : object.polygon = [])
    (hw : 0 < object.width) (hh : 0 < object.height) :
    collisionRectanglePoints object =
      joinSep ", " ([object.x, object.y,
        object.x + object.width, object.y,
        object.x + object.width, object.y + object.height,
        object.x, object.y + object.height].map intToString) ∧
    navigationRectangleVertices object =
      joinSep ", " ([object.x, object.y,
        object.x + object.width, object.y,
        object.x + object.width, object.y + object.height,
        object.x, object.y + object.height].map intToString) := by
  constructor <;>
    simp [collisionRectanglePoints, navigationRectangleVertices, joinSep,
      String.append_assoc]

theorem claim7_rectangle_corners_witness :
    collisionRectanglePoints rectExample = "2, 3, 6, 3, 6, 9, 2, 9" ∧
    navigationRectangleVertices rectExample = "2, 3, 6, 3, 6, 9, 2, 9" := by
  have h := claim7_rectangle_corners rectExample rfl (by decide) (by decide)
  exact ⟨h.1.trans (by decide), h.2.trans (by decide)⟩

/-- C8: no trailing list separator survives in front of a closing delimiter:
the stripped shape-assignment list, the joined navigation map, the rendered
z-index map, every polygon point list, every rectangle corner list and every
navigation index list end without a comma-plus-whitespace tail. -/
theorem claim8_no_trailing_separator :
    (∀ ts : Tileset, endsWithCommaWs (iterateTiles ts).shapes = false) ∧
    (∀ ts : Tileset, endsWithCommaWs (joinSep ", " (iterateTiles ts).navpolyMap) = false) ∧
    (∀ l : List (Nat × Nat × Rat), endsWithCommaWs (renderZIndexMap l) = false) ∧
    (∀ o : MapObject, endsWithCommaWs (collisionPolygonPoints o) = false) ∧
    (∀ o : MapObject, endsWithCommaWs (navigationPolygonVertices o) = false) ∧
    (∀ o : MapObject, endsWithCommaWs (collisionRectanglePoints o) = false) ∧
    (∀ o : MapObject, endsWithCommaWs (navigationRectangleVertices o) = false) ∧
    (∀ o : MapObject, endsWithCommaWs (navigationPolygonIndices o) = false) := by
  refine ⟨iterateTiles_shapes_noTrailing, ?_, ?_, ?_, ?_, ?_, ?_, ?_⟩
  · intro ts
    exact endsWithCommaWs_joinSep _ (iterateTiles_navpolyWF ts)
  · intro l
    apply endsWithCommaWs_joinSep
    intro e he
    simp only [renderZIndexMap, List.mem_map] at he
    obtain ⟨item, _, rfl⟩ := he
    exact safeLast_append _ _ ⟨')', by decide, by decide, by decide⟩
  · intro o
    rw [collisionPolygonPoints_eq]
    apply endsWithCommaWs_joinSep
    intro e he
    simp only [List.mem_map] at he
    obtain ⟨p, _, rfl⟩ := he
    exact pairString_safeLast _ _
  · intro o
    rw [navigationPolygonVertices_eq]
    apply endsWithCommaWs_joinSep
    intro e he
    simp only [List.mem_map] at he
    obtain ⟨p, _, rfl⟩ := he
    exact pairString_safeLast _ _
  · intro o
    exact endsWithCommaWs_of_safeLast (safeLast_append _ _ (intToString_safeLast _))
  · intro o
    exact endsWithCommaWs_of_safeLast (safeLast_append _ _ (intToString_safeLast _))
  · intro o
    apply endsWithCommaWs_joinSep
    intro e he
    simp only [navigationPolygonIndices, List.mem_map] at he
    obtain ⟨k, _, rfl⟩ := he
    exact natToString_safeLast k

/-- C9: the rendered resource text of one export invocation is a pure
function of the tileset and the resolved image path; the destination file
name plays no part, so two invocations on the same tileset produce
byte-identical text and no state survives between invocations (each starts
from the constructor's fresh state). -/
theorem claim9_deterministic_export (ts : Tileset) (spriteImagePath p1 p2 : String) :
    writeText ts spriteImagePath p1 = writeText ts spriteImagePath p2 ∧
    writeText ts spriteImagePath p1 =
      getTilesetTemplate ts spriteImagePath (iterateTiles ts) :=
  ⟨rfl, rfl⟩

set_option maxRecDepth 8000 in
set_option maxHeartbeats 2000000 in
/-- C10: every collision shape resource and its shape-assignment entry use
the owning tile's id as the sub-resource identifier, so a tile with two
collision objects emits two sub-resource blocks carrying the same identifier
and two assignment entries referencing it (shown concretely for tile id 7
with two rectangles). -/
theorem claim10_collision_ids :
    (∀ (st : AccState) (tile : Tile) (o : MapObject), 0 < o.polygon.length →
      (exportCollisions o tile st).shapesResources =
        st.shapesResources ++ getCollisionShapePolygon tile.id o ∧
      (exportCollisions o tile st).shapes =
        st.shapes ++ getShapesTemplate st.coords (o.type = "one-way") tile.id) ∧
    (∀ (st : AccState) (tile : Tile) (o : MapObject),
      o.polygon = [] → 0 < o.width → 0 < o.height →
      (exportCollisions o tile st).shapesResources =
        st.shapesResources ++ getCollisionShapeRectangle tile.id o ∧
      (exportCollisions o tile st).shapes =
        st.shapes ++ getShapesTemplate st.coords (o.type = "one-way") tile.id) ∧
    (iterateTiles tsC10).shapesResources =
      getCollisionShapeRectangle 7 rectA ++ getCollisionShapeRectangle 7 rectB ∧
    (iterateTiles tsC10).shapes =
      stripTrailingCommaWs (getShapesTemplate (0, 0) false 7 ++ getShapesTemplate (0, 0) false 7) := by
  refine ⟨?_, ?_, by decide, by decide⟩
  · intro st tile o h1
    constructor
    · simp [exportCollisions, h1, exportShapes_shapesResources]
    · simp [exportCollisions, h1, exportShapes_shapes]
  · intro st tile o hpoly hw hh
    have h1 : ¬ 0 < o.polygon.length := by rw [hpoly]; simp
    constructor
    · simp [exportCollisions, h1, hw, hh, exportShapes_shapesResources]
    · simp [exportCollisions, h1, hw, hh, exportShapes_shapes]

theorem claim10_collision_ids_witness :
    (exportCollisions rectA tileC10 (initState tsC10)).shapesResources =
      (initState tsC10).shapesResources ++ getCollisionShapeRectangle tileC10.id rectA :=
  (claim10_collision_ids.2.1 (initState tsC10) tileC10 rectA rfl (by decide) (by decide)).1
